import Mathlib

/-!
Verification development for the AI Virtual Metrology repository.

The frontend TypeScript (types, pages, chart components, utilities) is
embedded directly from the source files. The backend analytic core
(simulator, prediction engine, drift detector) is not present in the
available sources; where a claim depends on it, the definition is modelled
from the specification and carries a doc comment saying so.

Numeric values are embedded as rationals (ℚ); TypeScript string unions
become inductive types or strings, matching how the code compares them.
-/

namespace VM

/-! ## Data model (src/frontend/src/lib/types.ts) -/

/-- SetupParams from types.ts: substrate and coating material, target
thickness, spray distance, robot speed. -/
structure SetupParams where
  substrateMaterial : String
  coatingMaterial : String
  targetThicknessUm : ℚ
  sprayDistanceMm : ℚ
  robotSpeedMmS : ℚ
  deriving DecidableEq, Repr

/-- QualityMetrics from types.ts. The quality grade is kept as a string,
matching the TypeScript union of string literals and the string comparisons
performed by the UI code. -/
structure QualityMetrics where
  thicknessUm : ℚ
  thicknessUniformityPct : ℚ
  porosityPct : ℚ
  adhesionStrengthMpa : ℚ
  surfaceRoughnessRa : ℚ
  hasDelamination : Bool
  hasCracks : Bool
  hasVoids : Bool
  defectFlag : Bool
  qualityGrade : String
  deriving DecidableEq, Repr

/-- Run from types.ts. status is one of the strings running, completed,
failed; qualityMetrics is nullable. -/
structure Run where
  id : String
  batchId : String
  status : String
  isOod : Bool
  setupParams : SetupParams
  qualityMetrics : Option QualityMetrics
  deriving DecidableEq, Repr

/-- TimeSeriesPoint from types.ts: one sample of the 12 sensor channels
plus elapsed seconds. -/
structure TimeSeriesPoint where
  timeSeconds : ℚ
  plasmaTempC : ℚ
  plasmaPowerKw : ℚ
  primaryGasFlowSlpm : ℚ
  secondaryGasFlowSlpm : ℚ
  powderFeedRateGMin : ℚ
  carrierGasFlowSlpm : ℚ
  substrateTempC : ℚ
  sprayDistanceMm : ℚ
  chamberPressureMbar : ℚ
  ambientTempC : ℚ
  ambientHumidityPct : ℚ
  depositionRateUmS : ℚ
  deriving DecidableEq, Repr

/-- FeatureDrift from types.ts. -/
structure FeatureDrift where
  featureName : String
  ksStatistic : ℚ
  pValue : ℚ
  driftDetected : Bool
  referenceMean : ℚ
  currentMean : ℚ
  shiftMagnitude : ℚ
  deriving DecidableEq, Repr

/-- The DriftStatus.overallStatus union from types.ts:
stable | warning | critical | unknown | insufficient_data. -/
inductive OverallStatus where
  | stable
  | warning
  | critical
  | unknown
  | insufficient_data
  deriving DecidableEq, Repr

/-- The string literal each OverallStatus value denotes in TypeScript. -/
def OverallStatus.toKey : OverallStatus → String
  | .stable => "stable"
  | .warning => "warning"
  | .critical => "critical"
  | .unknown => "unknown"
  | .insufficient_data => "insufficient_data"

/-- DriftStatus from types.ts. The Record of feature name to FeatureDrift
is embedded as an association list; lastUpdated is a string timestamp. -/
structure DriftStatus where
  overallStatus : OverallStatus
  psi : ℚ
  featureDrift : List (String × FeatureDrift)
  driftedFeatures : List String
  lastUpdated : String
  referenceRunCount : ℕ
  currentRunCount : ℕ
  deriving DecidableEq, Repr

/-! ## Utility functions (src/lib/utils.ts) -/

/-- getGradeColor from utils.ts: switch on the grade string. -/
def getGradeColor (grade : String) : String :=
  if grade = "A" then "text-green-500"
  else if grade = "B" then "text-lime-500"
  else if grade = "C" then "text-yellow-500"
  else if grade = "reject" then "text-red-500"
  else "text-muted-foreground"

/-- getGradeBgColor from utils.ts: switch on the grade string. -/
def getGradeBgColor (grade : String) : String :=
  if grade = "A" then "bg-green-500/10 text-green-500"
  else if grade = "B" then "bg-lime-500/10 text-lime-500"
  else if grade = "C" then "bg-yellow-500/10 text-yellow-500"
  else if grade = "reject" then "bg-red-500/10 text-red-500"
  else "bg-muted text-muted-foreground"

/-- getQualityColor from utils.ts: threshold ladder on the
thickness-deviation ratio, mapping to hex color strings. -/
def getQualityColor (deviation : ℚ) : String :=
  if deviation < 2/100 then "#22c55e"
  else if deviation < 5/100 then "#84cc16"
  else if deviation < 10/100 then "#eab308"
  else if deviation < 15/100 then "#f97316"
  else "#ef4444"

/-- Severity rank of the five getQualityColor hex colors, ordered
green < lime < yellow < orange < red. -/
def colorSeverity (c : String) : ℕ :=
  if c = "#22c55e" then 0
  else if c = "#84cc16" then 1
  else if c = "#eab308" then 2
  else if c = "#f97316" then 3
  else 4

/-! ## Production Runs page filter (src/app/runs/page.tsx) -/

/-- The filter predicate of RunsPage.filteredRuns: the early-return chain
of the arrow function passed to runs.filter. The optional chain
run.qualityMetrics?.qualityGrade is embedded as Option.map, so a run
without qualityMetrics compares as none, never equal to some grade. -/
def runPassesFilters (statusFilter gradeFilter : String) (run : Run) : Bool :=
  if statusFilter ≠ "all" ∧ run.status ≠ statusFilter then false
  else if gradeFilter ≠ "all" ∧
      (run.qualityMetrics.map QualityMetrics.qualityGrade) ≠ some gradeFilter then false
  else true

/-- filteredRuns from RunsPage: runs.filter with the two-filter predicate. -/
def filteredRuns (runs : List Run) (statusFilter gradeFilter : String) : List Run :=
  runs.filter (runPassesFilters statusFilter gradeFilter)

/-! ## Drift chart (src/components/charts/drift-chart.tsx) -/

/-- One element of the data array built in DriftChart. -/
structure DriftChartEntry where
  name : String
  fullName : String
  shift : ℚ
  drifted : Bool
  deriving DecidableEq, Repr

/-- The mapping step of DriftChart.data: one map entry becomes a chart
entry with the display name truncated to 20 characters plus an ellipsis. -/
def driftChartEntryOf (p : String × FeatureDrift) : DriftChartEntry :=
  { name := if p.1.length > 20 then p.1.take 20 ++ "..." else p.1
    fullName := p.1
    shift := p.2.shiftMagnitude * 100
    drifted := p.2.driftDetected }

/-- Comparator of DriftChart.data.sort: (a, b) => b.shift - a.shift,
i.e. descending shift. -/
def driftChartLe (a b : DriftChartEntry) : Bool :=
  decide (b.shift ≤ a.shift)

/-- DriftChart.data: map the featureDrift record to entries, sort by shift
descending, and slice to the first 15. -/
def driftChartData (d : DriftStatus) : List DriftChartEntry :=
  ((d.featureDrift.map driftChartEntryOf).mergeSort driftChartLe).take 15

/-! ## Drift page (DriftPage, src/unnamed/part_002) -/

/-- One entry of the DriftPage statusConfig object literal. The icon is
embedded by its imported component name. -/
structure StatusConfig where
  icon : String
  color : String
  bgColor : String
  borderColor : String
  label : String
  description : String
  deriving DecidableEq, Repr

/-- The DriftPage statusConfig object literal, embedded as an association
list keyed by the status string. -/
def statusConfigEntries : List (String × StatusConfig) :=
  [ ("stable",
     { icon := "CheckCircle", color := "text-green-500",
       bgColor := "bg-green-500/10", borderColor := "border-green-500/50",
       label := "Stable",
       description := "Model predictions are reliable. No significant drift detected." }),
    ("warning",
     { icon := "AlertTriangle", color := "text-yellow-500",
       bgColor := "bg-yellow-500/10", borderColor := "border-yellow-500/50",
       label := "Warning",
       description := "Minor drift detected. Monitor closely and consider retraining." }),
    ("critical",
     { icon := "AlertTriangle", color := "text-red-500",
       bgColor := "bg-red-500/10", borderColor := "border-red-500/50",
       label := "Critical",
       description := "Significant drift detected. Model retraining recommended." }),
    ("unknown",
     { icon := "Shield", color := "text-muted-foreground",
       bgColor := "bg-muted", borderColor := "border-muted",
       label := "Unknown",
       description := "Insufficient data to assess drift status." }),
    ("insufficient_data",
     { icon := "Shield", color := "text-muted-foreground",
       bgColor := "bg-muted", borderColor := "border-muted",
       label := "Insufficient Data",
       description := "More production runs needed for drift detection." }) ]

/-- The DriftPage lookup statusConfig[drift.overallStatus]. -/
def statusConfigLookup (s : OverallStatus) : Option StatusConfig :=
  statusConfigEntries.lookup s.toKey

/-- The drifted-features list rendered by DriftPage:
drift.driftedFeatures.slice(0, 10). -/
def driftPageDriftedList (d : DriftStatus) : List String :=
  d.driftedFeatures.take 10

/-- The Features Monitored stat of DriftPage:
Object.keys(drift.featureDrift).length. -/
def featuresMonitored (d : DriftStatus) : ℕ :=
  (d.featureDrift.map Prod.fst).length

/-! ## Header notifications (src/components/layout/header.tsx) -/

/-- One notification built in Header; type is one of the strings
warning, error, success, info. -/
structure Notification where
  id : String
  type : String
  title : String
  description : String
  deriving DecidableEq, Repr

/-- Whether a run counts as a recent defect in Header:
r.qualityMetrics?.defectFlag. -/
def runHasDefect (r : Run) : Bool :=
  match r.qualityMetrics with
  | some q => q.defectFlag
  | none => false

/-- The notifications array built in Header from the drift status and the
recent runs, in the order the code pushes them: the drift alert (critical
else warning), then the recent-defects warning, then the System Healthy
success entry when the list is still empty, drift data is present and at
least one run is loaded. -/
def buildNotifications (drift : Option DriftStatus) (runs : List Run) :
    List Notification :=
  let afterDrift : List Notification :=
    match drift with
    | some d =>
      if d.overallStatus = .critical then
        [{ id := "drift-critical", type := "error",
           title := "Critical Drift Detected",
           description := "features drifted; retraining recommended" }]
      else if d.overallStatus = .warning then
        [{ id := "drift-warning", type := "warning",
           title := "Drift Warning",
           description := "minor drift detected" }]
      else []
    | none => []
  let recentDefects := runs.filter runHasDefect
  let afterDefects :=
    if recentDefects.length > 0 then
      afterDrift ++
        [{ id := "defects", type := "warning",
           title := "Recent Defects",
           description := "defects detected in recent runs" }]
    else afterDrift
  if afterDefects.length = 0 ∧ drift.isSome ∧ runs.length > 0 then
    afterDefects ++
      [{ id := "all-good", type := "success",
         title := "System Healthy",
         description := "All systems operational. No issues detected." }]
  else afterDefects

/-- The badge count in Header: notifications with type error or warning. -/
def notificationCount (drift : Option DriftStatus) (runs : List Run) : ℕ :=
  ((buildNotifications drift runs).filter
    (fun n => n.type = "error" ∨ n.type = "warning")).length

/-! ## Confidence band (src/components/charts/confidence-band.tsx) -/

/-- predictedPosition from ConfidenceBand: position of the predicted value
within the prediction interval, scaled to 0-100. -/
def predictedPosition (predictionLower predictionUpper predictedValue : ℚ) : ℚ :=
  (predictedValue - predictionLower) / (predictionUpper - predictionLower) * 100

/-! ## Spec-modelled backend core

The simulator, prediction engine and drift detector of the backend are not
among the available source files (only their TypeScript client types are),
so the definitions below are modelled from the specification. -/

/-- Mean of a list of rationals (sum over length; 0 for the empty list). -/
def listMean (xs : List ℚ) : ℚ :=
  xs.sum / xs.length

/-- Modelled from the spec: the simulator derives all randomness from the
seed. A linear congruential generator supplies the pseudo-random stream. -/
def lcgNext (s : ℕ) : ℕ :=
  (1664525 * s + 1013904223) % 2 ^ 32

/-- The LCG stream value i steps after the seed. -/
def lcgIter (seed : ℕ) : ℕ → ℕ
  | 0 => lcgNext seed
  | n + 1 => lcgNext (lcgIter seed n)

/-- Pseudo-noise value in the interval from -1/2 to 1/2, derived from the
seeded LCG stream at index i. -/
def noiseAt (seed i : ℕ) : ℚ :=
  ((lcgIter seed i % 1000 : ℕ) : ℚ) / 1000 - 1/2

/-- Modelled from the spec: one trace sample, each of the 12 channels a
noise-perturbed time series around a setup-dependent set-point, with the
deposition rate a derived function of powder feed rate, plasma power and
spray distance plus stochastic noise. -/
def sampleAt (setup : SetupParams) (seed i : ℕ) : TimeSeriesPoint :=
  let nz : ℕ → ℚ := fun k => noiseAt seed (12 * i + k)
  let plasmaPower := 55 + 10 * nz 1
  let powderFeed := 45 + 6 * nz 4
  let sprayDist := setup.sprayDistanceMm + 2 * nz 7
  { timeSeconds := i
    plasmaTempC := 11500 + 600 * nz 0
    plasmaPowerKw := plasmaPower
    primaryGasFlowSlpm := 45 + 4 * nz 2
    secondaryGasFlowSlpm := 12 + 2 * nz 3
    powderFeedRateGMin := powderFeed
    carrierGasFlowSlpm := 5 + nz 5
    substrateTempC := 220 + 30 * nz 6
    sprayDistanceMm := sprayDist
    chamberPressureMbar := 1013 + 5 * nz 8
    ambientTempC := 22 + 2 * nz 9
    ambientHumidityPct := 45 + 8 * nz 10
    depositionRateUmS := plasmaPower * powderFeed / (600 * max sprayDist 1) + nz 11 / 10 }

/-- Run-scoped constant number of trace samples. -/
def sampleCount : ℕ := 60

/-- Modelled from the spec: the full correlated noise-perturbed sensor
trace for one run, fully determined by (setup, seed). -/
def simTrace (setup : SetupParams) (seed : ℕ) : List TimeSeriesPoint :=
  (List.range sampleCount).map (sampleAt setup seed)

/-- Modelled from the spec: the deterministic ordered threshold ladder for
the quality grade over thickness deviation from target and porosity. -/
def qualityGradeOf (thicknessDev porosity : ℚ) : String :=
  if thicknessDev ≤ 1/20 ∧ porosity ≤ 2 then "A"
  else if thicknessDev ≤ 1/10 ∧ porosity ≤ 4 then "B"
  else if thicknessDev ≤ 3/20 ∧ porosity ≤ 6 then "C"
  else "reject"

/-- Modelled from the spec: ground-truth QualityMetrics derived from the
trace and setup — thickness as mean deposition rate times duration,
porosity as a function of process variance and spray-distance deviation
from the 120 mm optimum, adhesion and roughness from substrate temperature
and porosity, defect flags from documented thresholds
(high porosity gives voids, large substrate-temperature excursion gives
delamination, low uniformity gives cracks). -/
def qualityMetricsOf (setup : SetupParams) (trace : List TimeSeriesPoint) :
    QualityMetrics :=
  let depoRates := trace.map TimeSeriesPoint.depositionRateUmS
  let depoMean := listMean depoRates
  let thickness := depoMean * (sampleCount : ℚ)
  let depoVar := listMean (depoRates.map (fun x => (x - depoMean) ^ 2))
  let distDev := |listMean (trace.map TimeSeriesPoint.sprayDistanceMm) - 120| / 120
  let porosity := 1 + 40 * depoVar + 10 * distDev
  let substrateMean := listMean (trace.map TimeSeriesPoint.substrateTempC)
  let uniformity := max (100 - 200 * depoVar) 0
  let dev := |thickness - setup.targetThicknessUm| / setup.targetThicknessUm
  let voids := decide (porosity > 5)
  let delam := decide (|substrateMean - 220| > 40)
  let cracks := decide (uniformity < 85)
  { thicknessUm := thickness
    thicknessUniformityPct := uniformity
    porosityPct := porosity
    adhesionStrengthMpa := max (60 - 2 * porosity - |substrateMean - 220| / 10) 0
    surfaceRoughnessRa := 4 + porosity / 2
    hasDelamination := delam
    hasCracks := cracks
    hasVoids := voids
    defectFlag := voids || delam || cracks
    qualityGrade := qualityGradeOf dev porosity }

/-- Result record of one simulated run: the setup, the sensor trace and
the derived ground-truth quality metrics. -/
structure SimRun where
  setupParams : SetupParams
  trace : List TimeSeriesPoint
  qualityMetrics : QualityMetrics
  deriving DecidableEq, Repr

/-- Modelled from the spec: simulate_run(setup, seed) generates the trace
from the seeded noise stream and derives the QualityMetrics from trace and
setup; no randomness outside the seed is consumed. -/
def simulate_run (setup : SetupParams) (seed : ℕ) : SimRun :=
  let trace := simTrace setup seed
  { setupParams := setup
    trace := trace
    qualityMetrics := qualityMetricsOf setup trace }

/-! ## Spec-modelled run lifecycle -/

/-- The three run statuses of the lifecycle, as an inductive type. -/
inductive RunStatus where
  | running
  | completed
  | failed
  deriving DecidableEq, Repr

/-- Modelled from the spec: the mutable state of a stored run — its status
and (once complete) its QualityMetrics. -/
structure RunState where
  status : RunStatus
  qualityMetrics : Option QualityMetrics
  deriving DecidableEq, Repr

/-- Modelled from the spec: the only transitions a Run may take — from
running to completed (attaching its QualityMetrics) or from running to
failed. No rule departs from a terminal status, so a terminal Run and its
QualityMetrics are never mutated. -/
inductive RunTransition : RunState → RunState → Prop where
  | complete (r : RunState) (qm : QualityMetrics) (h : r.status = .running) :
      RunTransition r { status := .completed, qualityMetrics := some qm }
  | fail (r : RunState) (h : r.status = .running) :
      RunTransition r { status := .failed, qualityMetrics := r.qualityMetrics }

/-! ## Spec-modelled prediction engine -/

/-- Modelled from the spec: a FeatureVector is a mapping from feature
names to numeric values. -/
def FeatureVec : Type := List (String × ℚ)

/-- The discretized confidence level of an UncertaintyEstimate. -/
inductive ConfidenceLevel where
  | high
  | medium
  | low
  deriving DecidableEq, Repr

/-- Modelled from the spec: an UncertaintyEstimate — a 90% prediction
interval around the thickness point estimate, its width, the normalized
relative-uncertainty ratio, a discretized confidence level and the
epistemic/aleatoric decomposition of total variance. -/
structure UncertaintyEstimate where
  pointEstimate : ℚ
  predictionLower : ℚ
  predictionUpper : ℚ
  intervalWidth : ℚ
  relativeUncertainty : ℚ
  confidenceLevel : ConfidenceLevel
  epistemicUncertainty : ℚ
  aleatoricUncertainty : ℚ
  deriving DecidableEq, Repr

/-- Modelled from the spec: the model snapshot heads the uncertainty path
uses — the thickness regressor, the 5th/95th percentile quantile
regressors, and the ensemble of estimators for epistemic uncertainty. -/
structure ModelSnapshot where
  thicknessReg : FeatureVec → ℚ
  q05 : FeatureVec → ℚ
  q95 : FeatureVec → ℚ
  ensemble : List (FeatureVec → ℚ)

/-- Modelled from the spec: epistemic uncertainty approximated as the
variance of the disagreement across the ensemble of estimators. -/
def ensembleVariance (m : ModelSnapshot) (f : FeatureVec) : ℚ :=
  let preds := m.ensemble.map (fun g => g f)
  listMean (preds.map (fun x => (x - listMean preds) ^ 2))

/-- Modelled from the spec: the total interval-derived variance — a 90%
interval has width 2 times 1.645 standard deviations, so the variance is
(width over 3.29) squared. -/
def totalIntervalVariance (width : ℚ) : ℚ :=
  (width / (329/100)) ^ 2

/-- Modelled from the spec: predict_uncertainty — the interval comes from
the quantile heads and is placed around the clamped point estimate, the
confidence level normalizes interval width against the point estimate, the
epistemic component is ensemble disagreement capped at the total
interval-derived variance and the aleatoric component is the residual, so
the two sum exactly to the total. -/
def predict_uncertainty (m : ModelSnapshot) (f : FeatureVec) :
    UncertaintyEstimate :=
  let point := max (m.thicknessReg f) 0
  let width := max (m.q95 f - m.q05 f) 0
  let relU := width / (2 * point)
  let total := totalIntervalVariance width
  let epi := min (ensembleVariance m f) total
  { pointEstimate := point
    predictionLower := point - width / 2
    predictionUpper := point + width / 2
    intervalWidth := width
    relativeUncertainty := relU
    confidenceLevel :=
      if relU < 1/20 then .high else if relU < 3/20 then .medium else .low
    epistemicUncertainty := epi
    aleatoricUncertainty := total - epi }

/-! ## Spec-modelled drift detector -/

/-- Minimum run count per window for drift computation. -/
def minRunCount : ℕ := 10

/-- Empirical cumulative distribution function of a sample list at v. -/
def ecdf (xs : List ℚ) (v : ℚ) : ℚ :=
  (((xs.filter (fun x => x ≤ v)).length : ℕ) : ℚ) / (xs.length : ℚ)

/-- Modelled from the spec: the two-sample Kolmogorov-Smirnov statistic —
the largest absolute difference of the two empirical distribution
functions, attained at a sample point of either window. -/
def ksStatisticOf (ref cur : List ℚ) : ℚ :=
  ((ref ++ cur).map (fun v => |ecdf ref v - ecdf cur v|)).foldr max 0

/-- Modelled from the spec: a rational surrogate for the asymptotic
two-sample KS p-value exp(-2 d^2 nm/(n+m)) — 1/(1+x) in place of exp(-x),
agreeing with it in monotonicity and range; the spec leaves the exact
formula to the implementation as a documented choice. -/
def ksPValue (d : ℚ) (n m : ℕ) : ℚ :=
  1 / (1 + 2 * d ^ 2 * ((n * m : ℕ) : ℚ) / ((n + m : ℕ) : ℚ))

/-- Values of one named feature across a window of feature vectors. -/
def featureValues (name : String) (w : List FeatureVec) : List ℚ :=
  w.filterMap (fun v => List.lookup name v)

/-- Modelled from the spec: normalized mean-shift magnitude of a feature
between windows. -/
def shiftMagnitudeOf (refMean curMean : ℚ) : ℚ :=
  |curMean - refMean| / max |refMean| 1

/-- Significance threshold for the KS p-value. -/
def ksAlpha : ℚ := 1/20

/-- Minimum-effect floor on the KS statistic, so that trivial shifts at
large sample sizes are not flagged. -/
def ksMinEffect : ℚ := 1/10

/-- Modelled from the spec: the per-feature drift record — KS statistic
and p-value between the windows, the drift flag (p below the significance
threshold AND statistic above the minimum-effect floor), both window
means and the normalized shift magnitude. -/
def featureDriftOf (name : String) (reference current : List FeatureVec) :
    FeatureDrift :=
  let rv := featureValues name reference
  let cv := featureValues name current
  let rm := listMean rv
  let cm := listMean cv
  let ks := ksStatisticOf rv cv
  let p := ksPValue ks rv.length cv.length
  { featureName := name
    ksStatistic := ks
    pValue := p
    driftDetected := decide (p < ksAlpha ∧ ksMinEffect ≤ ks)
    referenceMean := rm
    currentMean := cm
    shiftMagnitude := shiftMagnitudeOf rm cm }

/-- Epsilon floor for zero-probability PSI bins. -/
def psiEpsilon : ℚ := 1/10000

/-- Successive differences of a list against a running previous value. -/
def diffList (prev : ℚ) : List ℚ → List ℚ
  | [] => []
  | x :: rest => (x - prev) :: diffList x rest

/-- Modelled from the spec: k-1 quantile-derived bin edges computed from
the reference distribution. -/
def quantileEdges (xs : List ℚ) (k : ℕ) : List ℚ :=
  let s := xs.mergeSort (fun a b => decide (a ≤ b))
  (List.range (k - 1)).filterMap (fun i => s.get? ((i + 1) * s.length / k))

/-- Bin shares of a sample over the given edges: differences of the
empirical distribution function at the edges, the last bin closing at 1. -/
def binShares (edges : List ℚ) (xs : List ℚ) : List ℚ :=
  diffList 0 (edges.map (ecdf xs) ++ [1])

/-- Modelled from the spec: per-feature Population Stability Index over 10
reference-quantile bins, zero-probability bins floored to psiEpsilon, with
ln(c/r) replaced by its first-order surrogate (c-r)/r — a documented
rational choice the spec's open-question note admits. -/
def psiOf (ref cur : List ℚ) : ℚ :=
  let edges := quantileEdges ref 10
  let rp := (binShares edges ref).map (fun r => max r psiEpsilon)
  let cp := (binShares edges cur).map (fun c => max c psiEpsilon)
  ((rp.zip cp).map (fun p => (p.2 - p.1) * ((p.2 - p.1) / p.1))).sum

/-- Feature names of a window: the names of its first vector. -/
def windowFeatureNames (w : List FeatureVec) : List String :=
  match w with
  | [] => []
  | v :: _ => v.map Prod.fst

/-- Aggregate-PSI threshold for the critical status. -/
def psiCritical : ℚ := 1/4

/-- Aggregate-PSI threshold for the warning status. -/
def psiWarning : ℚ := 1/10

/-- More than this many KS-flagged features is critical. -/
def criticalFlagCount : ℕ := 3

/-- Modelled from the spec: compute_drift — insufficient_data when either
window is below the minimum run count; otherwise per-feature KS drift
records and the mean PSI across features feed the ordered status ladder
(critical, then warning, then stable), and the drifted-feature list is
every KS-flagged feature sorted by shift magnitude descending, capped at
the top 15 for display while the full per-feature map is exposed whole. -/
def compute_drift (reference current : List FeatureVec) : DriftStatus :=
  if reference.length < minRunCount ∨ current.length < minRunCount then
    { overallStatus := .insufficient_data
      psi := 0
      featureDrift := []
      driftedFeatures := []
      lastUpdated := ""
      referenceRunCount := reference.length
      currentRunCount := current.length }
  else
    let names := windowFeatureNames reference
    let fds := names.map (fun n => (n, featureDriftOf n reference current))
    let psi := listMean (names.map (fun n =>
      psiOf (featureValues n reference) (featureValues n current)))
    let flagged := fds.filter (fun p => p.2.driftDetected)
    let drifted := ((flagged.mergeSort
      (fun a b => decide (b.2.shiftMagnitude ≤ a.2.shiftMagnitude))).map
        Prod.fst).take 15
    { overallStatus :=
        if psiCritical ≤ psi ∨ criticalFlagCount < flagged.length then .critical
        else if psiWarning ≤ psi ∨ 0 < flagged.length then .warning
        else .stable
      psi := psi
      featureDrift := fds
      driftedFeatures := drifted
      lastUpdated := ""
      referenceRunCount := reference.length
      currentRunCount := current.length }

/-! ## Concrete instances and helpers used by witnesses -/

/-- Concrete QualityMetrics used by witnesses. -/
def qmEx : QualityMetrics :=
  ⟨300, 95, 2, 50, 4, false, false, false, false, "A"⟩

/-- Concrete running run state. -/
def runningState : RunState := ⟨RunStatus.running, none⟩

/-- Concrete completed run state. -/
def completedState : RunState := ⟨RunStatus.completed, some qmEx⟩

/-- Concrete run without quality metrics, used by the C8 witness. -/
def runNoQm : Run :=
  ⟨"run-001", "batch-001", "completed", false,
    ⟨"steel", "alumina", 300, 120, 50⟩, none⟩

/-- Concrete model snapshot with constant heads, used by the C2 witness. -/
def snapshotEx : ModelSnapshot :=
  { thicknessReg := fun _ => 300
    q05 := fun _ => 280
    q95 := fun _ => 320
    ensemble := [fun _ => 298, fun _ => 302] }

/-- Concrete FeatureDrift record used by the C4 witness. -/
def fdEx : FeatureDrift :=
  ⟨"plasma_power_mean", 1/2, 1/100, true, 55, 60, 1/10⟩

/-- Concrete DriftStatus with a one-feature map, used by the C4 witness. -/
def driftEx : DriftStatus :=
  ⟨OverallStatus.warning, 12/100, [("plasma_power_mean", fdEx)],
    ["plasma_power_mean"], "2024-01-01", 30, 30⟩

/-- Whether the drift status contributes an error or warning notification
in the Header: overallStatus critical or warning. -/
def driftAlert (drift : Option DriftStatus) : Bool :=
  match drift with
  | some d =>
      decide (d.overallStatus = OverallStatus.critical) ||
        decide (d.overallStatus = OverallStatus.warning)
  | none => false

/-! ## Theorems -/

/-- Helper: characterization of the RunsPage filter predicate. -/
theorem runPassesFilters_iff (sf gf : String) (r : Run) :
    runPassesFilters sf gf r = true ↔
      (sf = "all" ∨ r.status = sf) ∧
        (gf = "all" ∨ r.qualityMetrics.map QualityMetrics.qualityGrade = some gf) := by
  unfold runPassesFilters
  split_ifs with h1 h2 <;>
    simp only [not_and_or, not_not, ne_eq] at * <;> tauto

/-- C1: simulate_run is deterministic in (setup, seed): repeated calls with
identical inputs return identical results, in particular an identical
trace and identical QualityMetrics. -/
theorem simulate_run_deterministic :
    ∀ (setup : SetupParams) (seed : ℕ),
      simulate_run setup seed = simulate_run setup seed ∧
      (simulate_run setup seed).trace = (simulate_run setup seed).trace ∧
      (simulate_run setup seed).qualityMetrics =
        (simulate_run setup seed).qualityMetrics :=
  fun _ _ => ⟨rfl, rfl, rfl⟩

/-- C3: when either window is below the minimum run count, compute_drift
reports insufficient_data and never stable. -/
theorem compute_drift_insufficient_spec :
    ∀ (reference current : List FeatureVec),
      reference.length < minRunCount ∨ current.length < minRunCount →
        (compute_drift reference current).overallStatus =
            OverallStatus.insufficient_data ∧
          (compute_drift reference current).overallStatus ≠
            OverallStatus.stable := by
  intro reference current h
  have hs : (compute_drift reference current).overallStatus =
      OverallStatus.insufficient_data := by
    unfold compute_drift
    rw [if_pos h]
  exact ⟨hs, by rw [hs]; decide⟩

/-- C3 witness: two empty windows are below the minimum run count and
yield insufficient_data, not stable. -/
theorem compute_drift_insufficient_witness :
    ([] : List FeatureVec).length < minRunCount ∧
      ((compute_drift [] []).overallStatus = OverallStatus.insufficient_data ∧
        (compute_drift [] []).overallStatus ≠ OverallStatus.stable) :=
  ⟨by decide, compute_drift_insufficient_spec [] [] (Or.inl (by decide))⟩

/-- C5: the overall status takes exactly the five declared values, and the
DriftPage statusConfig lookup is defined at every one of them. -/
theorem statusConfig_total_spec :
    (∀ s : OverallStatus,
        s = OverallStatus.stable ∨ s = OverallStatus.warning ∨
          s = OverallStatus.critical ∨ s = OverallStatus.unknown ∨
          s = OverallStatus.insufficient_data) ∧
    (∀ s : OverallStatus, (statusConfigLookup s).isSome = true) := by
  constructor <;> intro s <;> cases s <;> simp [statusConfigLookup,
    statusConfigEntries, OverallStatus.toKey]

/-- C6: a run transition departs only from running and lands on completed
or failed; no transition departs from a terminal status, so a terminal run
and its metrics are never mutated. -/
theorem runTransition_spec :
    (∀ r rNext : RunState, RunTransition r rNext →
        r.status = RunStatus.running ∧
          (rNext.status = RunStatus.completed ∨
            rNext.status = RunStatus.failed)) ∧
    (∀ r rNext : RunState,
        r.status = RunStatus.completed ∨ r.status = RunStatus.failed →
          ¬ RunTransition r rNext) := by
  constructor
  · intro r rn h
    cases h with
    | complete qm hr => exact ⟨hr, Or.inl rfl⟩
    | fail hr => exact ⟨hr, Or.inr rfl⟩
  · intro r rn hterm h
    cases h with
    | complete qm hr => rcases hterm with h1 | h1 <;> rw [hr] at h1 <;> cases h1
    | fail hr => rcases hterm with h1 | h1 <;> rw [hr] at h1 <;> cases h1

/-- C6 witness: a concrete completion step departs from running and lands
on completed, and the completed state admits no further transition. -/
theorem runTransition_witness :
    (runningState.status = RunStatus.running ∧
      (completedState.status = RunStatus.completed ∨
        completedState.status = RunStatus.failed)) ∧
    ¬ RunTransition completedState runningState :=
  ⟨runTransition_spec.1 runningState completedState
      (RunTransition.complete runningState qmEx rfl),
    runTransition_spec.2 completedState runningState (Or.inl rfl)⟩

/-- C7: the grade color helpers return the dedicated class of each of the
four grades and the muted default for every other string. -/
theorem gradeColor_spec :
    (getGradeColor "A" = "text-green-500" ∧
      getGradeColor "B" = "text-lime-500" ∧
      getGradeColor "C" = "text-yellow-500" ∧
      getGradeColor "reject" = "text-red-500" ∧
      getGradeBgColor "A" = "bg-green-500/10 text-green-500" ∧
      getGradeBgColor "B" = "bg-lime-500/10 text-lime-500" ∧
      getGradeBgColor "C" = "bg-yellow-500/10 text-yellow-500" ∧
      getGradeBgColor "reject" = "bg-red-500/10 text-red-500") ∧
    (∀ g : String, g ≠ "A" → g ≠ "B" → g ≠ "C" → g ≠ "reject" →
      getGradeColor g = "text-muted-foreground" ∧
      getGradeBgColor g = "bg-muted text-muted-foreground") := by
  refine ⟨by decide, ?_⟩
  intro g hA hB hC hR
  constructor <;> simp [getGradeColor, getGradeBgColor, hA, hB, hC, hR]

/-- C7 witness: the grade string D is none of the four grades and maps to
the muted defaults. -/
theorem gradeColor_witness :
    ("D" : String) ≠ "A" ∧
      (getGradeColor "D" = "text-muted-foreground" ∧
        getGradeBgColor "D" = "bg-muted text-muted-foreground") :=
  ⟨by decide,
    gradeColor_spec.2 "D" (by decide) (by decide) (by decide) (by decide)⟩

/-- C8: RunsPage.filteredRuns keeps exactly the runs matching both
filters, excludes a run without qualityMetrics under any specific grade
filter, and keeps every run when both filters are all. -/
theorem filteredRuns_spec :
    (∀ (runs : List Run) (sf gf : String) (r : Run),
        r ∈ filteredRuns runs sf gf ↔
          r ∈ runs ∧ (sf = "all" ∨ r.status = sf) ∧
            (gf = "all" ∨
              r.qualityMetrics.map QualityMetrics.qualityGrade = some gf)) ∧
    (∀ (runs : List Run) (sf gf : String) (r : Run),
        gf ≠ "all" → r.qualityMetrics = none →
          r ∉ filteredRuns runs sf gf) ∧
    (∀ runs : List Run, filteredRuns runs "all" "all" = runs) := by
  refine ⟨?_, ?_, ?_⟩
  · intro runs sf gf r
    rw [filteredRuns, List.mem_filter, runPassesFilters_iff]
  · intro runs sf gf r hgf hqm hmem
    rw [filteredRuns, List.mem_filter, runPassesFilters_iff] at hmem
    rcases hmem.2.2 with h | h
    · exact hgf h
    · rw [hqm] at h
      cases h
  · intro runs
    refine List.filter_eq_self.mpr ?_
    intro r _
    rw [runPassesFilters_iff]
    exact ⟨Or.inl rfl, Or.inl rfl⟩

/-- C8 witness: under the specific grade filter A, the concrete run
without qualityMetrics is excluded from the filtered list. -/
theorem filteredRuns_witness :
    ("A" : String) ≠ "all" ∧ runNoQm.qualityMetrics = none ∧
      runNoQm ∉ filteredRuns [runNoQm] "all" "A" :=
  ⟨by decide, rfl,
    filteredRuns_spec.2.1 [runNoQm] "all" "A" runNoQm (by decide) rfl⟩

/-- C9: getQualityColor is a monotone step function of the deviation
ratio under the severity order green, lime, yellow, orange, red; below
0.02 it is green and at or above 0.15 it is red. -/
theorem getQualityColor_spec :
    (∀ d1 d2 : ℚ, d1 ≤ d2 →
        colorSeverity (getQualityColor d1) ≤
          colorSeverity (getQualityColor d2)) ∧
    (∀ d : ℚ, d < 2/100 → getQualityColor d = "#22c55e") ∧
    (∀ d : ℚ, 15/100 ≤ d → getQualityColor d = "#ef4444") := by
  refine ⟨?_, ?_, ?_⟩
  · intro d1 d2 h
    unfold getQualityColor
    split_ifs <;> first | decide | linarith
  · intro d h
    simp [getQualityColor, h]
  · intro d h
    unfold getQualityColor
    split_ifs <;> first | rfl | linarith
/-- C9 witness: concrete deviations 0.01 and 0.12 are ordered and so are
their color severities; 0.01 is green and 0.2 is red. -/
theorem getQualityColor_witness :
    ((1 : ℚ)/100 ≤ 12/100 ∧
      colorSeverity (getQualityColor (1/100)) ≤
        colorSeverity (getQualityColor (12/100))) ∧
    ((1 : ℚ)/100 < 2/100 ∧ getQualityColor (1/100) = "#22c55e") ∧
    ((15 : ℚ)/100 ≤ 20/100 ∧ getQualityColor (20/100) = "#ef4444") :=
  ⟨⟨by norm_num, getQualityColor_spec.1 (1/100) (12/100) (by norm_num)⟩,
    ⟨by norm_num, getQualityColor_spec.2.1 (1/100) (by norm_num)⟩,
    ⟨by norm_num, getQualityColor_spec.2.2 (20/100) (by norm_num)⟩⟩

/-- C2: every modelled predict_uncertainty result has a sane interval
(lower at most point at most upper, non-negative relative uncertainty,
epistemic plus aleatoric equal to the total interval-derived variance),
and under interval sanity the ConfidenceBand marker position lies between
0 and 100. -/
theorem predict_uncertainty_interval_sanity :
    (∀ (m : ModelSnapshot) (f : FeatureVec),
        (predict_uncertainty m f).predictionLower ≤
            (predict_uncertainty m f).pointEstimate ∧
          (predict_uncertainty m f).pointEstimate ≤
            (predict_uncertainty m f).predictionUpper ∧
          0 ≤ (predict_uncertainty m f).relativeUncertainty ∧
          (predict_uncertainty m f).epistemicUncertainty +
              (predict_uncertainty m f).aleatoricUncertainty =
            totalIntervalVariance (predict_uncertainty m f).intervalWidth) ∧
    (∀ low up pv : ℚ, low ≤ pv → pv ≤ up →
        0 ≤ predictedPosition low up pv ∧
          predictedPosition low up pv ≤ 100) := by
  constructor
  · intro m f
    have hp : (0:ℚ) ≤ max (m.thicknessReg f) 0 := le_max_right _ _
    have hw : (0:ℚ) ≤ max (m.q95 f - m.q05 f) 0 := le_max_right _ _
    simp only [predict_uncertainty]
    refine ⟨by linarith, by linarith, ?_, by ring⟩
    exact div_nonneg hw (by linarith)
  · intro low up pv h1 h2
    unfold predictedPosition
    rcases eq_or_lt_of_le (sub_nonneg.mpr (h1.trans h2)) with h0 | h0
    · rw [← h0, div_zero, zero_mul]
      norm_num
    · have hnum : (0:ℚ) ≤ pv - low := by linarith
      have hge : (0:ℚ) ≤ (pv - low) / (up - low) :=
        div_nonneg hnum (le_of_lt h0)
      have hle : (pv - low) / (up - low) ≤ 1 := by
        rw [div_le_one h0]
        linarith
      constructor
      · exact mul_nonneg hge (by norm_num)
      · calc (pv - low) / (up - low) * 100 ≤ 1 * 100 :=
              mul_le_mul_of_nonneg_right hle (by norm_num)
          _ = 100 := by norm_num

/-- C2 witness: the sanity conjunction at a concrete snapshot and feature
vector, and the marker position at the concrete interval 280-320 with
point 300. -/
theorem predict_uncertainty_witness :
    ((predict_uncertainty snapshotEx ([] : FeatureVec)).predictionLower ≤
        (predict_uncertainty snapshotEx ([] : FeatureVec)).pointEstimate ∧
      (predict_uncertainty snapshotEx ([] : FeatureVec)).pointEstimate ≤
        (predict_uncertainty snapshotEx ([] : FeatureVec)).predictionUpper ∧
      0 ≤ (predict_uncertainty snapshotEx ([] : FeatureVec)).relativeUncertainty ∧
      (predict_uncertainty snapshotEx ([] : FeatureVec)).epistemicUncertainty +
          (predict_uncertainty snapshotEx ([] : FeatureVec)).aleatoricUncertainty =
        totalIntervalVariance
          (predict_uncertainty snapshotEx ([] : FeatureVec)).intervalWidth) ∧
    ((280:ℚ) ≤ 300 ∧ (300:ℚ) ≤ 320 ∧
      (0 ≤ predictedPosition 280 320 300 ∧
        predictedPosition 280 320 300 ≤ 100)) :=
  ⟨predict_uncertainty_interval_sanity.1 snapshotEx ([] : FeatureVec),
    by norm_num, by norm_num,
    predict_uncertainty_interval_sanity.2 280 320 300 (by norm_num) (by norm_num)⟩

/-- C4: the drift chart data is the per-feature map sorted by shift
magnitude descending and truncated to 15 entries, its every entry comes
from the map, the drift page list shows at most 10 drifted features, and
the features-monitored count is the untruncated size of the map. -/
theorem driftChartData_spec :
    ∀ d : DriftStatus,
      (driftChartData d).length = min 15 d.featureDrift.length ∧
      (driftChartData d).Pairwise (fun a b => b.shift ≤ a.shift) ∧
      (∀ e, e ∈ driftChartData d → e ∈ d.featureDrift.map driftChartEntryOf) ∧
      (driftPageDriftedList d).length ≤ 10 ∧
      featuresMonitored d = d.featureDrift.length := by
  intro d
  refine ⟨?_, ?_, ?_, ?_, ?_⟩
  · rw [driftChartData, List.length_take, List.length_mergeSort, List.length_map]
  · have htrans : ∀ a b c : DriftChartEntry,
        driftChartLe a b → driftChartLe b c → driftChartLe a c := by
      intro a b c hab hbc
      simp only [driftChartLe, decide_eq_true_eq] at *
      exact le_trans hbc hab
    have htotal : ∀ a b : DriftChartEntry,
        driftChartLe a b || driftChartLe b a := by
      intro a b
      simp only [driftChartLe]
      rcases le_total a.shift b.shift with h | h <;> simp [h]
    have hs := List.sorted_mergeSort htrans htotal
      (d.featureDrift.map driftChartEntryOf)
    have hp : ((d.featureDrift.map driftChartEntryOf).mergeSort
        driftChartLe).Pairwise (fun a b => b.shift ≤ a.shift) := by
      refine hs.imp ?_
      intro a b h
      simpa [driftChartLe] using h
    exact List.Pairwise.sublist (List.take_sublist _ _) hp
  · intro e he
    exact List.mem_mergeSort.mp (List.take_subset _ _ he)
  · exact le_trans (List.length_take_le _ _) (by norm_num)
  · rw [featuresMonitored, List.length_map]

/-- C4 witness: the single chart entry of the concrete drift status is in
the chart data and, by the theorem, in the mapped per-feature map. -/
theorem driftChartData_witness :
    driftChartEntryOf ("plasma_power_mean", fdEx) ∈ driftChartData driftEx ∧
      driftChartEntryOf ("plasma_power_mean", fdEx) ∈
        driftEx.featureDrift.map driftChartEntryOf := by
  have hmem : driftChartEntryOf ("plasma_power_mean", fdEx) ∈
      driftChartData driftEx := by
    simp [driftChartData, driftEx]
  exact ⟨hmem, (driftChartData_spec driftEx).2.2.1 _ hmem⟩

/-- C10: the Header badge count equals one for a critical or warning drift
status plus one for recent defect runs, and the System Healthy success
entry appears exactly when no other notification exists, drift data is
present and a run is loaded — it never contributes to the badge count. -/
theorem notificationCount_spec :
    ∀ (drift : Option DriftStatus) (runs : List Run),
      notificationCount drift runs =
          ((if driftAlert drift then 1 else 0) +
            (if 0 < (runs.filter runHasDefect).length then 1 else 0)) ∧
        ((∃ n ∈ buildNotifications drift runs, n.type = "success") ↔
          driftAlert drift = false ∧ (runs.filter runHasDefect).length = 0 ∧
            drift.isSome = true ∧ 0 < runs.length) := by
  intro drift runs
  by_cases hD : 0 < (runs.filter runHasDefect).length
  · have hR : 0 < runs.length :=
      lt_of_lt_of_le hD (List.length_filter_le _ _)
    rcases drift with _ | d
    · simp [notificationCount, buildNotifications, driftAlert, hD, hR,
        Nat.ne_of_gt hD]
    · rcases hs : d.overallStatus <;>
        simp [notificationCount, buildNotifications, driftAlert, hs, hD, hR,
          Nat.ne_of_gt hD]
  · have hD0 : (runs.filter runHasDefect).length = 0 := Nat.eq_zero_of_not_pos hD
    rcases drift with _ | d
    · simp [notificationCount, buildNotifications, driftAlert, hD, hD0]
    · by_cases hR : 0 < runs.length
      · rcases hs : d.overallStatus <;>
          simp [notificationCount, buildNotifications, driftAlert, hs, hD, hD0, hR]
      · have hR0 : runs.length = 0 := Nat.eq_zero_of_not_pos hR
        rcases hs : d.overallStatus <;>
          simp [notificationCount, buildNotifications, driftAlert, hs, hD, hD0,
            hR, hR0]

end VM
